import Mathlib

/-!
Verification of the vending-machine session state machine in
`src/lib/vendingState.ts` (the converged variant with `paymentInfo`).

Modelling conventions:
* JavaScript timestamps (`Date.now()`) are modelled as `Int` milliseconds.
  Every exported operation takes the current time `now` as an explicit
  argument; the several `Date.now()` calls inside one operation body are
  modelled as returning that same `now`.
* `generateSessionId` produces a random, practically unique string.  It is
  modelled as drawing from a fresh-id supply: the store carries a counter
  `gen`, and each generated id is the current counter value (the counter is
  then bumped).  The well-formedness predicate `WF` (`sessionId < gen`)
  makes freshness (`new id ≠ any id previously in the store`) provable.
* The module-level mutable variables (`store` and `pausedTimeRemaining`)
  are gathered into one `Store` record that every operation threads
  explicitly.  `pausedTimeRemaining` is *not* part of the snapshot object
  spread by `getSnapshot`, so the snapshot type omits it, exactly as in the
  source.
* The `console.log` physical-dispense side effect and the `setTimeout`
  auto-advance scheduled by `dispense` are modelled as an explicit `Effect`
  list returned by `dispense`; the bodies of the two scheduled callbacks
  are the functions `dispenseDoneTimer` and `doneIdleTimer`.
-/

namespace Vending

/-- `VendingStateType` from the source: the five machine states. -/
inductive VState where
  | IDLE
  | CHATTING
  | PAYMENT_PENDING
  | DISPENSING
  | DONE
deriving DecidableEq, Repr

/-- String name of a state, used in interpolated error messages. -/
def stateName : VState → String
  | .IDLE => "IDLE"
  | .CHATTING => "CHATTING"
  | .PAYMENT_PENDING => "PAYMENT_PENDING"
  | .DISPENSING => "DISPENSING"
  | .DONE => "DONE"

/-- `PaymentInfo` from the source; each nullable field is an `Option`. -/
structure PaymentInfo where
  preferenceId : Option String
  qrCodeUrl : Option String
  qrCodeDataUrl : Option String
  amount : Option Int
  description : Option String
  createdAt : Option Int
  paymentExpiresAt : Option Int
deriving DecidableEq, Repr

/-- The all-null `PaymentInfo` record used by the store initialiser,
`resetToIdle` and `clearPaymentInfo`. -/
def emptyPaymentInfo : PaymentInfo :=
  { preferenceId := none, qrCodeUrl := none, qrCodeDataUrl := none
    amount := none, description := none, createdAt := none
    paymentExpiresAt := none }

/-- The whole module-level mutable state of `vendingState.ts`: the `store`
object, the separate module variable `pausedTimeRemaining`, and the
fresh-id supply `gen` modelling `generateSessionId` (see file comment). -/
structure Store where
  state : VState
  sessionId : Nat
  lockedByName : Option String
  updatedAt : Int
  chatExpiresAt : Option Int
  paymentInfo : PaymentInfo
  pausedTimeRemaining : Option Int
  gen : Nat
deriving DecidableEq, Repr

/-- `VendingSnapshot`: the object produced by `getSnapshot`'s spread of
`store` (which does not include `pausedTimeRemaining`). -/
structure VendingSnapshot where
  state : VState
  sessionId : Nat
  lockedByName : Option String
  updatedAt : Int
  chatExpiresAt : Option Int
  paymentInfo : PaymentInfo
deriving DecidableEq, Repr

/-- Spread `{ ...store }` into a snapshot. -/
def toSnapshot (s : Store) : VendingSnapshot :=
  { state := s.state, sessionId := s.sessionId
    lockedByName := s.lockedByName, updatedAt := s.updatedAt
    chatExpiresAt := s.chatExpiresAt, paymentInfo := s.paymentInfo }

/-- Result type of the guarded operations: `{ ok: boolean; message?: string }`. -/
structure OpResult where
  ok : Bool
  message : Option String
deriving DecidableEq, Repr

/-- CHAT_TTL_MS = 60_000. -/
def CHAT_TTL_MS : Int := 60000

/-- PAYMENT_TTL_MS = 60_000. -/
def PAYMENT_TTL_MS : Int := 60000

/-- The store at process start: IDLE, fresh session id, all-null payment
info.  In the fresh-id model the initial id is `0` and the supply starts
at `1`; the process-start timestamp is taken as `0`. -/
def initialStore : Store :=
  { state := .IDLE, sessionId := 0, lockedByName := none, updatedAt := 0
    chatExpiresAt := none, paymentInfo := emptyPaymentInfo
    pausedTimeRemaining := none, gen := 1 }

/-- Well-formedness of the fresh-id supply: the current session id was
drawn from the supply, so it is below the next fresh value. -/
def WF (s : Store) : Prop := s.sessionId < s.gen

instance (s : Store) : Decidable (WF s) := by unfold WF; infer_instance

/-- Deadline test used by `expireIfNeeded`: a nullable absolute deadline
has passed when it is non-null and `now >= deadline`. -/
def due (deadline : Option Int) (now : Int) : Bool :=
  match deadline with
  | none => false
  | some d => decide (d ≤ now)

/-- `resetToIdle`: fresh session id, IDLE, everything cleared — except the
module variable `pausedTimeRemaining`, which `resetToIdle` never touches. -/
def resetToIdle (s : Store) (now : Int) : Store :=
  { s with
    state := .IDLE, lockedByName := none, sessionId := s.gen,
    gen := s.gen + 1, chatExpiresAt := none,
    paymentInfo := emptyPaymentInfo, updatedAt := now }

/-- `expireIfNeeded`: the three sequential lazy-expiry checks (chat
deadline in CHATTING, payment deadline in PAYMENT_PENDING, payment
deadline while still CHATTING), each resetting to IDLE when due. -/
def expireIfNeeded (s : Store) (now : Int) : Store :=
  if s.state = .CHATTING ∧ due s.chatExpiresAt now then resetToIdle s now
  else if s.state = .PAYMENT_PENDING ∧ due s.paymentInfo.paymentExpiresAt now then
    resetToIdle s now
  else if s.state = .CHATTING ∧ due s.paymentInfo.paymentExpiresAt now then
    resetToIdle s now
  else s

/-- Condition under which `expireIfNeeded` fires (the disjunction of its
three guards). -/
def staleAt (s : Store) (now : Int) : Bool :=
  (s.state = .CHATTING && due s.chatExpiresAt now) ||
  (s.state = .PAYMENT_PENDING && due s.paymentInfo.paymentExpiresAt now) ||
  (s.state = .CHATTING && due s.paymentInfo.paymentExpiresAt now)

/-- `getSnapshot`: evaluates expiry, then returns the spread copy of the
store; we also return the (possibly reset) store itself. -/
def getSnapshot (s : Store) (now : Int) : VendingSnapshot × Store :=
  let s1 := expireIfNeeded s now
  (toSnapshot s1, s1)

/-- `regenerateSessionIfIdle`: mints a fresh session id when IDLE (and
touches `updatedAt`), otherwise leaves the store alone; returns the
current id. -/
def regenerateSessionIfIdle (s : Store) (now : Int) : Nat × Store :=
  if s.state = .IDLE then
    (s.gen, { s with sessionId := s.gen, gen := s.gen + 1, updatedAt := now })
  else (s.sessionId, s)

/-- `claim(sessionId, userName)`: expiry check, busy guard, identity
guard, then move to CHATTING with the chat deadline armed. -/
def claim (sid : Nat) (userName : String) (s0 : Store) (now : Int) :
    OpResult × Store :=
  let s := expireIfNeeded s0 now
  if s.state ≠ .IDLE then
    (⟨false, some ("Machine is busy in state " ++ stateName s.state)⟩, s)
  else if sid ≠ s.sessionId then
    (⟨false, some "Invalid or expired QR. Please rescan."⟩, s)
  else
    (⟨true, none⟩,
      { s with
        state := .CHATTING, lockedByName := some userName,
        chatExpiresAt := some (now + CHAT_TTL_MS), updatedAt := now })

/-- `cancel(sessionId)`: expiry check, identity guard, no-op when IDLE,
otherwise reset to IDLE with a fresh id.  Note the source resets `state`,
`lockedByName`, `sessionId` and `chatExpiresAt` inline and does **not**
clear `paymentInfo` (unlike `resetToIdle`). -/
def cancel (sid : Nat) (s0 : Store) (now : Int) : OpResult × Store :=
  let s := expireIfNeeded s0 now
  if sid ≠ s.sessionId then (⟨false, some "Wrong session"⟩, s)
  else if s.state = .IDLE then (⟨true, none⟩, s)
  else
    (⟨true, none⟩,
      { s with
        state := .IDLE, lockedByName := none, sessionId := s.gen,
        gen := s.gen + 1, chatExpiresAt := none, updatedAt := now })

/-- Side effects of `dispense`: the physical-dispense `console.log`
placeholder (with the occupant name it logs) and the scheduling of the
`setTimeout` auto-advance chain. -/
inductive Effect where
  | physicalDispense (name : Option String)
  | scheduleAutoAdvance
deriving DecidableEq, Repr

/-- `dispense(sessionId)`: expiry check, identity guard, CHATTING-only
state guard; on success move to DISPENSING, emit the physical-dispense
effect and schedule the DONE/IDLE auto-advance. -/
def dispense (sid : Nat) (s0 : Store) (now : Int) :
    OpResult × Store × List Effect :=
  let s := expireIfNeeded s0 now
  if sid ≠ s.sessionId then (⟨false, some "Wrong session"⟩, s, [])
  else if s.state ≠ .CHATTING then
    (⟨false, some ("Cannot dispense from " ++ stateName s.state)⟩, s, [])
  else
    (⟨true, none⟩, { s with state := .DISPENSING, updatedAt := now },
      [.physicalDispense s.lockedByName, .scheduleAutoAdvance])

/-- Body of the first `setTimeout` scheduled by `dispense`: it sets
`state = DONE` unconditionally and touches `updatedAt`. -/
def dispenseDoneTimer (s : Store) (now : Int) : Store :=
  { s with state := .DONE, updatedAt := now }

/-- Body of the nested second `setTimeout` scheduled by `dispense`: it
calls `resetToIdle`. -/
def doneIdleTimer (s : Store) (now : Int) : Store := resetToIdle s now

/-- `markDone(sessionId)`: expiry check, identity guard, DISPENSING-only
state guard, then DONE. -/
def markDone (sid : Nat) (s0 : Store) (now : Int) : OpResult × Store :=
  let s := expireIfNeeded s0 now
  if sid ≠ s.sessionId then (⟨false, some "Wrong session"⟩, s)
  else if s.state ≠ .DISPENSING then
    (⟨false, some ("Cannot mark done from " ++ stateName s.state)⟩, s)
  else (⟨true, none⟩, { s with state := .DONE, updatedAt := now })

/-- `canSendChat(sessionId)`: expiry check, identity guard, CHATTING-only
state guard; never mutates beyond the expiry check. -/
def canSendChat (sid : Nat) (s0 : Store) (now : Int) : OpResult × Store :=
  let s := expireIfNeeded s0 now
  if sid ≠ s.sessionId then (⟨false, some "Wrong session"⟩, s)
  else if s.state ≠ .CHATTING then
    (⟨false, some ("Cannot chat from " ++ stateName s.state)⟩, s)
  else (⟨true, none⟩, s)

/-- `pauseChatTimer(sessionId)`: identity and CHATTING guards (no expiry
check); when the deadline is live, capture
`pausedTimeRemaining = max(0, chatExpiresAt − now)` and null the
deadline; when already paused (null deadline) do nothing. -/
def pauseChatTimer (sid : Nat) (s : Store) (now : Int) : OpResult × Store :=
  if sid ≠ s.sessionId then (⟨false, some "Wrong session"⟩, s)
  else if s.state ≠ .CHATTING then
    (⟨false, some ("Cannot pause timer from " ++ stateName s.state)⟩, s)
  else
    match s.chatExpiresAt with
    | none => (⟨true, none⟩, s)
    | some d =>
      (⟨true, none⟩,
        { s with
          pausedTimeRemaining := some (max 0 (d - now)),
          chatExpiresAt := none })

/-- `resumeChatTimer(sessionId)`: identity and CHATTING guards (no expiry
check); when a remaining budget is saved, re-arm
`chatExpiresAt = now + pausedTimeRemaining` and consume the budget. -/
def resumeChatTimer (sid : Nat) (s : Store) (now : Int) : OpResult × Store :=
  if sid ≠ s.sessionId then (⟨false, some "Wrong session"⟩, s)
  else if s.state ≠ .CHATTING then
    (⟨false, some ("Cannot resume timer from " ++ stateName s.state)⟩, s)
  else
    match s.pausedTimeRemaining with
    | none => (⟨true, none⟩, s)
    | some r =>
      (⟨true, none⟩,
        { s with chatExpiresAt := some (now + r), pausedTimeRemaining := none })

/-- `setPaymentInfo(sessionId, paymentInfo)`: identity and CHATTING guards
(no expiry check); stores the caller's record with `createdAt` and
`paymentExpiresAt` overwritten server-side; the state stays CHATTING. -/
def setPaymentInfo (sid : Nat) (info : PaymentInfo) (s : Store) (now : Int) :
    OpResult × Store :=
  if sid ≠ s.sessionId then (⟨false, some "Wrong session"⟩, s)
  else if s.state ≠ .CHATTING then
    (⟨false, some ("Cannot set payment info from " ++ stateName s.state)⟩, s)
  else
    (⟨true, none⟩,
      { s with
        paymentInfo :=
          { info with
            createdAt := some now,
            paymentExpiresAt := some (now + PAYMENT_TTL_MS) },
        updatedAt := now })

/-- `clearPaymentInfo(sessionId)`: identity guard only (no state guard, no
expiry check); resets the payment sub-record to all-null. -/
def clearPaymentInfo (sid : Nat) (s : Store) (now : Int) : OpResult × Store :=
  if sid ≠ s.sessionId then (⟨false, some "Wrong session"⟩, s)
  else (⟨true, none⟩, { s with paymentInfo := emptyPaymentInfo, updatedAt := now })

/-- `getPaymentInfo(sessionId)`: identity guard only (no expiry check);
returns the payment sub-record and never mutates the store. -/
def getPaymentInfo (sid : Nat) (s : Store) :
    OpResult × Option PaymentInfo × Store :=
  if sid ≠ s.sessionId then (⟨false, some "Wrong session"⟩, none, s)
  else (⟨true, none⟩, some s.paymentInfo, s)

/-- Relation between a pre-state and a post-state of one elementary
transition: the session id changed exactly when the transition moved the
machine from a non-IDLE state to IDLE. -/
def sessionIdChangeIffIdle (a b : Store) : Prop :=
  b.sessionId ≠ a.sessionId ↔ (a.state ≠ .IDLE ∧ b.state = .IDLE)

/-- Sample payment record with caller-supplied (bogus) timestamps, used in
concrete scenarios. -/
def infoX : PaymentInfo :=
  { preferenceId := some "pref", qrCodeUrl := some "url",
    qrCodeDataUrl := none, amount := some 100, description := some "coke",
    createdAt := some 999, paymentExpiresAt := some 999 }

/-- Store reached from process start by a successful `claim` at time 0:
CHATTING, occupied by Ana, chat deadline 60000. -/
def chattingStore : Store := (claim 0 "Ana" initialStore 0).2

/-! Helper lemmas about expiry and well-formedness. -/

theorem expire_of_not_stale {s : Store} {now : Int}
    (h : staleAt s now = false) : expireIfNeeded s now = s := by
  unfold staleAt at h
  unfold expireIfNeeded
  simp only [Bool.or_eq_false_iff, Bool.and_eq_false_iff] at h
  split_ifs with h1 h2 h3 <;> simp_all

theorem expire_of_stale {s : Store} {now : Int}
    (h : staleAt s now = true) : expireIfNeeded s now = resetToIdle s now := by
  unfold staleAt at h
  unfold expireIfNeeded
  simp only [Bool.or_eq_true, Bool.and_eq_true] at h
  split_ifs with h1 h2 h3 <;> simp_all

theorem staleAt_resetToIdle (s : Store) (now t : Int) :
    staleAt (resetToIdle s now) t = false := by
  simp [staleAt, resetToIdle, due, emptyPaymentInfo]

theorem WF_resetToIdle (s : Store) (now : Int) : WF (resetToIdle s now) := by
  simp [WF, resetToIdle]

theorem WF_expire {s : Store} (now : Int) (h : WF s) :
    WF (expireIfNeeded s now) := by
  rcases hb : staleAt s now with _ | _
  · rwa [expire_of_not_stale hb]
  · rw [expire_of_stale hb]; exact WF_resetToIdle s now

theorem resetToIdle_sessionId_ne {s : Store} (now : Int) (h : WF s) :
    (resetToIdle s now).sessionId ≠ s.sessionId := by
  simp only [resetToIdle]
  unfold WF at h
  omega

/-- C1 counterexample: on a CHATTING store whose chat deadline (60000) has
passed, `cancel` called at time 70000 with the wrong session id 99
returns not-ok, yet the store is mutated (the expiry pre-check resets it
to IDLE with a fresh id), contradicting "leaves the entire store record
unchanged". -/
theorem cancel_wrongSession_mutates_on_expiry :
    99 ≠ chattingStore.sessionId ∧
    (cancel 99 chattingStore 70000).1.ok = false ∧
    (cancel 99 chattingStore 70000).2 ≠ chattingStore := by
  decide

/-- C1 (amended): provided no deadline has already passed at call time,
every exported operation that takes a session id, when called with an id
different from the store's current one, returns a not-ok result and
leaves the whole store record (including `pausedTimeRemaining`)
unchanged; operations that pre-check expiry may otherwise first perform
the lazy-expiry reset. -/
theorem wrongSession_rejects_and_frames (s : Store) (sid : Nat)
    (userName : String) (info : PaymentInfo) (now : Int)
    (hns : staleAt s now = false) (hsid : sid ≠ s.sessionId) :
    ((claim sid userName s now).1.ok = false ∧ (claim sid userName s now).2 = s) ∧
    (cancel sid s now = (⟨false, some "Wrong session"⟩, s)) ∧
    ((dispense sid s now).1.ok = false ∧ (dispense sid s now).2.1 = s ∧
      (dispense sid s now).2.2 = []) ∧
    (markDone sid s now = (⟨false, some "Wrong session"⟩, s)) ∧
    (canSendChat sid s now = (⟨false, some "Wrong session"⟩, s)) ∧
    (pauseChatTimer sid s now = (⟨false, some "Wrong session"⟩, s)) ∧
    (resumeChatTimer sid s now = (⟨false, some "Wrong session"⟩, s)) ∧
    (setPaymentInfo sid info s now = (⟨false, some "Wrong session"⟩, s)) ∧
    (clearPaymentInfo sid s now = (⟨false, some "Wrong session"⟩, s)) ∧
    (getPaymentInfo sid s = (⟨false, some "Wrong session"⟩, none, s)) := by
  have hE : expireIfNeeded s now = s := expire_of_not_stale hns
  refine ⟨⟨?_, ?_⟩, ?_, ⟨?_, ?_, ?_⟩, ?_, ?_, ?_, ?_, ?_, ?_, ?_⟩ <;>
    simp only [claim, cancel, dispense, markDone, canSendChat,
      pauseChatTimer, resumeChatTimer, setPaymentInfo, clearPaymentInfo,
      getPaymentInfo, hE] <;>
    split_ifs <;> simp_all

/-- Witness for the amended C1 at a concrete input: the initial store is
not stale at time 5 and `claim` with the wrong id 7 is rejected without
any change to the store. -/
theorem wrongSession_rejects_and_frames_witness :
    (claim 7 "Ana" initialStore 5).1.ok = false ∧
    (claim 7 "Ana" initialStore 5).2 = initialStore :=
  (wrongSession_rejects_and_frames initialStore 7 "Ana" infoX 5
    (by decide) (by decide)).1

/-- C2: the paymentInfo invariant is violated by the code.  From the
initial IDLE store, `claim`; `setPaymentInfo`; `cancel` reaches an IDLE
store that still holds the payment record (cancel, unlike `resetToIdle`,
never clears `paymentInfo`), and `claim`; `setPaymentInfo`; `dispense`
reaches DISPENSING with the payment record still attached. -/
theorem cancel_leaves_paymentInfo_in_idle :
    ((cancel 0 (setPaymentInfo 0 infoX chattingStore 1).2 2).2.state =
      VState.IDLE ∧
     (cancel 0 (setPaymentInfo 0 infoX chattingStore 1).2 2).2.paymentInfo.preferenceId =
      some "pref") ∧
    ((dispense 0 (setPaymentInfo 0 infoX chattingStore 1).2 2).2.1.state =
      VState.DISPENSING ∧
     (dispense 0 (setPaymentInfo 0 infoX chattingStore 1).2 2).2.1.paymentInfo.preferenceId =
      some "pref") := by
  decide

/-- C3: if the store is CHATTING with a chat deadline at or before `now`,
or is CHATTING/PAYMENT_PENDING with a payment deadline at or before
`now`, then the very next `getSnapshot` returns an IDLE snapshot with a
new session id, null `lockedByName` and `chatExpiresAt`, and a fully-null
`paymentInfo`, with no explicit reset call. -/
theorem snapshot_observes_expiry (s : Store) (now : Int) (hwf : WF s)
    (h : (s.state = .CHATTING ∧ ∃ d, s.chatExpiresAt = some d ∧ d ≤ now) ∨
      ((s.state = .CHATTING ∨ s.state = .PAYMENT_PENDING) ∧
        ∃ p, s.paymentInfo.paymentExpiresAt = some p ∧ p ≤ now)) :
    (getSnapshot s now).1.state = .IDLE ∧
    (getSnapshot s now).1.sessionId ≠ s.sessionId ∧
    (getSnapshot s now).1.lockedByName = none ∧
    (getSnapshot s now).1.chatExpiresAt = none ∧
    (getSnapshot s now).1.paymentInfo = emptyPaymentInfo := by
  have hst : staleAt s now = true := by
    rcases h with ⟨h1, d, hd, hdle⟩ | ⟨h1 | h1, p, hp2, hple⟩
    · simp [staleAt, due, h1, hd, hdle]
    · simp [staleAt, due, h1, hp2, hple]
    · simp [staleAt, due, h1, hp2, hple]
  have hE := expire_of_stale hst
  have hid := resetToIdle_sessionId_ne (s := s) now hwf
  simp [getSnapshot, hE, toSnapshot, resetToIdle] at hid ⊢
  simpa [resetToIdle] using hid

/-- Witness for C3: the chatting store's deadline 60000 has passed at
time 60000, and the snapshot taken then is IDLE with a fresh id. -/
theorem snapshot_observes_expiry_witness :
    (getSnapshot chattingStore 60000).1.state = .IDLE ∧
    (getSnapshot chattingStore 60000).1.sessionId ≠ chattingStore.sessionId :=
  ⟨(snapshot_observes_expiry chattingStore 60000 (by decide)
      (Or.inl ⟨by decide, 60000, by decide, le_refl 60000⟩)).1,
   (snapshot_observes_expiry chattingStore 60000 (by decide)
      (Or.inl ⟨by decide, 60000, by decide, le_refl 60000⟩)).2.1⟩

/-- C4 counterexample: pausing does not capture `deadline − now` when the
deadline already lies in the past.  On the chatting store (deadline
60000), pausing at 70000 captures 0, not −10000, and an immediate resume
re-arms the deadline at 70000 instead of restoring 60000. -/
theorem pause_clamps_expired_remaining :
    chattingStore.chatExpiresAt = some 60000 ∧
    (pauseChatTimer 0 chattingStore 70000).2.pausedTimeRemaining = some 0 ∧
    (resumeChatTimer 0 (pauseChatTimer 0 chattingStore 70000).2 70000).2.chatExpiresAt =
      some 70000 := by
  decide

/-- C4 (amended): in CHATTING with a live deadline `d`, pausing at `now`
captures `remaining = max 0 (d − now)` and nulls the deadline; when the
deadline has not yet passed (`now ≤ d`) an immediate resume restores
exactly `d`.  Resuming with no saved budget is a no-op, a second pause
while already paused changes nothing, and double-pause then single-resume
re-arms from the first captured remaining value. -/
theorem pause_resume_algebra (s : Store) (d now now2 now3 : Int)
    (hst : s.state = .CHATTING) (hd : s.chatExpiresAt = some d)
    (hnow : now ≤ d) :
    (pauseChatTimer s.sessionId s now).2 =
      { s with pausedTimeRemaining := some (d - now), chatExpiresAt := none } ∧
    (resumeChatTimer s.sessionId (pauseChatTimer s.sessionId s now).2 now).2.chatExpiresAt =
      some d ∧
    pauseChatTimer s.sessionId (pauseChatTimer s.sessionId s now).2 now2 =
      (⟨true, none⟩, (pauseChatTimer s.sessionId s now).2) ∧
    (resumeChatTimer s.sessionId (pauseChatTimer s.sessionId s now).2 now3).2.chatExpiresAt =
      some (now3 + (d - now)) ∧
    (∀ t, s.pausedTimeRemaining = none →
      resumeChatTimer s.sessionId s t = (⟨true, none⟩, s)) := by
  have hmax : max 0 (d - now) = d - now := by omega
  have hp : (pauseChatTimer s.sessionId s now).2 =
      { s with pausedTimeRemaining := some (d - now), chatExpiresAt := none } := by
    simp [pauseChatTimer, hst, hd, hmax]
  refine ⟨hp, ?_, ?_, ?_, ?_⟩
  · rw [hp]; simp [resumeChatTimer, hst]
  · rw [hp]; simp [pauseChatTimer, hst]
  · rw [hp]; simp [resumeChatTimer, hst]
  · intro t hnone; simp [resumeChatTimer, hst, hnone]

/-- Witness for the amended C4: concrete pause at 10000 on the chatting
store (deadline 60000), second pause at 20000, resume at 30000 re-arms
the deadline at 30000 + 50000 = 80000. -/
theorem pause_resume_algebra_witness :
    (resumeChatTimer chattingStore.sessionId
      (pauseChatTimer chattingStore.sessionId chattingStore 10000).2 30000).2.chatExpiresAt =
      some 80000 := by
  have h := (pause_resume_algebra chattingStore 60000 10000 20000 30000
    (by decide) (by decide) (by decide)).2.2.2.1
  simpa using h

/-- C5 counterexample: `setPaymentInfo` does not evaluate expiry.  On the
chatting store whose chat deadline 60000 has passed at time 70000
(`staleAt` holds), it nevertheless succeeds, keeps the state CHATTING and
the old session id, and leaves the store stale — a caller has mutated an
already-expired state. -/
theorem setPaymentInfo_skips_expiry_check :
    staleAt chattingStore 70000 = true ∧
    (setPaymentInfo 0 infoX chattingStore 70000).1.ok = true ∧
    (setPaymentInfo 0 infoX chattingStore 70000).2.state = VState.CHATTING ∧
    (setPaymentInfo 0 infoX chattingStore 70000).2.sessionId =
      chattingStore.sessionId ∧
    staleAt (setPaymentInfo 0 infoX chattingStore 70000).2 70000 = true := by
  decide

/-- C5 (amended): the operations that do pre-check expiry — getSnapshot,
claim, cancel, dispense, markDone and canSendChat — never leave a caller
on a stale state: called on a store whose deadline has passed, each
resets it first, so the resulting store is not stale and carries a fresh
session id.  (setPaymentInfo, clearPaymentInfo, getPaymentInfo,
pauseChatTimer and resumeChatTimer perform no such check.) -/
theorem expiry_checked_ops_never_stale (s : Store) (now : Int) (sid : Nat)
    (u : String) (hwf : WF s) (hst : staleAt s now = true) :
    (staleAt (getSnapshot s now).2 now = false ∧
      (getSnapshot s now).2.sessionId ≠ s.sessionId) ∧
    (staleAt (claim sid u s now).2 now = false ∧
      (claim sid u s now).2.sessionId ≠ s.sessionId) ∧
    (staleAt (cancel sid s now).2 now = false ∧
      (cancel sid s now).2.sessionId ≠ s.sessionId) ∧
    (staleAt (dispense sid s now).2.1 now = false ∧
      (dispense sid s now).2.1.sessionId ≠ s.sessionId) ∧
    (staleAt (markDone sid s now).2 now = false ∧
      (markDone sid s now).2.sessionId ≠ s.sessionId) ∧
    (staleAt (canSendChat sid s now).2 now = false ∧
      (canSendChat sid s now).2.sessionId ≠ s.sessionId) := by
  have hE := expire_of_stale hst
  unfold WF at hwf
  refine ⟨⟨?_, ?_⟩, ⟨?_, ?_⟩, ⟨?_, ?_⟩, ⟨?_, ?_⟩, ⟨?_, ?_⟩, ⟨?_, ?_⟩⟩ <;>
    simp [getSnapshot, claim, cancel, dispense, markDone, canSendChat, hE,
      resetToIdle, staleAt, due, emptyPaymentInfo, CHAT_TTL_MS] <;>
    first
      | omega
      | (split_ifs <;>
          simp_all [staleAt, due, emptyPaymentInfo, CHAT_TTL_MS] <;> omega)

/-- Witness for the amended C5 on a concrete stale store: after `claim`
touches the expired chatting store at time 70000, the store is no longer
stale and its session id is fresh. -/
theorem expiry_checked_ops_never_stale_witness :
    staleAt (claim 0 "Bob" chattingStore 70000).2 70000 = false ∧
    (claim 0 "Bob" chattingStore 70000).2.sessionId ≠ chattingStore.sessionId :=
  (expiry_checked_ops_never_stale chattingStore 70000 0 "Bob"
    (by decide) (by decide)).2.1

/-- C6 counterexample: on the IDLE initial store, `cancel` with a
mismatched session id 99 is *not* an ok no-op — the identity guard runs
before the IDLE check and rejects it with `WrongSession`. -/
theorem cancel_wrongSession_in_idle :
    initialStore.state = VState.IDLE ∧
    99 ≠ initialStore.sessionId ∧
    (cancel 99 initialStore 5).1.ok = false := by
  decide

/-- C6 (amended): `cancel` first checks identity against the (post
expiry-check) current id and fails with `WrongSession` on any mismatch,
even when IDLE; with a matching id it is an ok no-op when IDLE, and from
every non-IDLE state it unconditionally resets to IDLE with a freshly
generated session id, clearing `lockedByName` and `chatExpiresAt` while
leaving `paymentInfo` as it was — there is no state guard beyond the
identity check. -/
theorem cancel_contract (s : Store) (now : Int) (sid : Nat) (hwf : WF s) :
    (sid ≠ (expireIfNeeded s now).sessionId →
      cancel sid s now = (⟨false, some "Wrong session"⟩, expireIfNeeded s now)) ∧
    (sid = (expireIfNeeded s now).sessionId →
      (expireIfNeeded s now).state = .IDLE →
      cancel sid s now = (⟨true, none⟩, expireIfNeeded s now)) ∧
    (sid = (expireIfNeeded s now).sessionId →
      (expireIfNeeded s now).state ≠ .IDLE →
      (cancel sid s now).1.ok = true ∧
      (cancel sid s now).2 =
        { expireIfNeeded s now with
          state := .IDLE, lockedByName := none,
          sessionId := (expireIfNeeded s now).gen,
          gen := (expireIfNeeded s now).gen + 1,
          chatExpiresAt := none, updatedAt := now } ∧
      (cancel sid s now).2.sessionId ≠ (expireIfNeeded s now).sessionId ∧
      (cancel sid s now).2.paymentInfo = (expireIfNeeded s now).paymentInfo) := by
  have hwfe : WF (expireIfNeeded s now) := WF_expire now hwf
  unfold WF at hwfe
  refine ⟨?_, ?_, ?_⟩
  · intro h; simp [cancel, h]
  · intro h1 h2; simp [cancel, h1, h2]
  · intro h1 h2
    refine ⟨?_, ?_, ?_, ?_⟩
    all_goals simp [cancel, h1, h2]
    all_goals omega

/-- Witness for the amended C6: cancelling the chatting store at time 10
with its own id 0 succeeds and mints a fresh session id. -/
theorem cancel_contract_witness :
    (cancel 0 chattingStore 10).1.ok = true ∧
    (cancel 0 chattingStore 10).2.sessionId ≠
      (expireIfNeeded chattingStore 10).sessionId :=
  ⟨((cancel_contract chattingStore 10 0 (by decide)).2.2
      (by decide) (by decide)).1,
   ((cancel_contract chattingStore 10 0 (by decide)).2.2
      (by decide) (by decide)).2.2.1⟩

theorem stale_state {s : Store} {now : Int} (h : staleAt s now = true) :
    s.state = .CHATTING ∨ s.state = .PAYMENT_PENDING := by
  unfold staleAt at h
  simp only [Bool.or_eq_true, Bool.and_eq_true, decide_eq_true_eq] at h
  tauto

theorem change_iff_of_same_id {a b : Store} (hid : b.sessionId = a.sessionId)
    (h : a.state = .IDLE ∨ b.state ≠ .IDLE) : sessionIdChangeIffIdle a b := by
  unfold sessionIdChangeIffIdle
  rw [hid]
  rcases h with h | h <;> simp [h]

theorem change_iff_refl (a : Store) : sessionIdChangeIffIdle a a :=
  change_iff_of_same_id rfl (by tauto)

theorem change_iff_same_fields {a b : Store} (hid : b.sessionId = a.sessionId)
    (hstate : b.state = a.state) : sessionIdChangeIffIdle a b :=
  change_iff_of_same_id hid (by rw [hstate]; tauto)

theorem change_iff_reset_like {a b : Store} (hid : b.sessionId ≠ a.sessionId)
    (ha : a.state ≠ .IDLE) (hb : b.state = .IDLE) :
    sessionIdChangeIffIdle a b := by
  unfold sessionIdChangeIffIdle
  simp [hid, ha, hb]

/-- C7 counterexample: `regenerateSessionIfIdle` changes the session id
while the machine is IDLE before and after, contradicting "no operation
changes sessionId while the machine remains IDLE throughout". -/
theorem regenerate_changes_id_while_idle :
    initialStore.state = VState.IDLE ∧
    (regenerateSessionIfIdle initialStore 5).2.state = VState.IDLE ∧
    (regenerateSessionIfIdle initialStore 5).2.sessionId ≠
      initialStore.sessionId := by
  decide

/-- C7 (amended): across every elementary transition of the exported
session-guarded operations — the lazy-expiry reset, each operation's own
post-expiry-check step, and the two auto-advance timer callbacks fired
from their intended states — the session id changes if and only if the
transition moves the machine from a non-IDLE state to IDLE (so every
reset to IDLE installs a fresh id and no other step alters it).  The
deliberate exception is `regenerateSessionIfIdle`, which mints a fresh id
while the machine stays IDLE to invalidate stale QR codes. -/
theorem sessionId_change_iff_reset (s : Store) (now t : Int) (sid : Nat)
    (u : String) (info : PaymentInfo) (hwf : WF s) :
    sessionIdChangeIffIdle s (expireIfNeeded s now) ∧
    sessionIdChangeIffIdle (expireIfNeeded s now) (claim sid u s now).2 ∧
    sessionIdChangeIffIdle (expireIfNeeded s now) (cancel sid s now).2 ∧
    sessionIdChangeIffIdle (expireIfNeeded s now) (dispense sid s now).2.1 ∧
    sessionIdChangeIffIdle (expireIfNeeded s now) (markDone sid s now).2 ∧
    sessionIdChangeIffIdle (expireIfNeeded s now) (canSendChat sid s now).2 ∧
    sessionIdChangeIffIdle s (pauseChatTimer sid s now).2 ∧
    sessionIdChangeIffIdle s (resumeChatTimer sid s now).2 ∧
    sessionIdChangeIffIdle s (setPaymentInfo sid info s now).2 ∧
    sessionIdChangeIffIdle s (clearPaymentInfo sid s now).2 ∧
    sessionIdChangeIffIdle s (getPaymentInfo sid s).2.2 ∧
    (s.state = .DISPENSING → sessionIdChangeIffIdle s (dispenseDoneTimer s t)) ∧
    (s.state = .DONE → sessionIdChangeIffIdle s (doneIdleTimer s t)) := by
  have hwfe : WF (expireIfNeeded s now) := WF_expire now hwf
  refine ⟨?_, ?_, ?_, ?_, ?_, ?_, ?_, ?_, ?_, ?_, ?_, ?_, ?_⟩
  · rcases hb : staleAt s now with _ | _
    · rw [expire_of_not_stale hb]; exact change_iff_refl s
    · rw [expire_of_stale hb]
      refine change_iff_reset_like (resetToIdle_sessionId_ne now hwf) ?_ rfl
      rcases stale_state hb with h | h <;> simp [h]
  · by_cases h1 : (expireIfNeeded s now).state = .IDLE
    · by_cases h2 : sid = (expireIfNeeded s now).sessionId
      · refine change_iff_of_same_id ?_ (Or.inl h1)
        simp [claim, h1, h2]
      · have he : (claim sid u s now).2 = expireIfNeeded s now := by
          simp [claim, h1, h2]
        rw [he]; exact change_iff_refl _
    · have he : (claim sid u s now).2 = expireIfNeeded s now := by
        simp [claim, h1]
      rw [he]; exact change_iff_refl _
  · by_cases h2 : sid = (expireIfNeeded s now).sessionId
    · by_cases h1 : (expireIfNeeded s now).state = .IDLE
      · have he : (cancel sid s now).2 = expireIfNeeded s now := by
          simp [cancel, h1, h2]
        rw [he]; exact change_iff_refl _
      · refine change_iff_reset_like ?_ h1 ?_ <;>
          simp [cancel, h1, h2]
        unfold WF at hwfe; omega
    · have he : (cancel sid s now).2 = expireIfNeeded s now := by
        simp [cancel, h2]
      rw [he]; exact change_iff_refl _
  · by_cases h2 : sid = (expireIfNeeded s now).sessionId
    · by_cases h1 : (expireIfNeeded s now).state = .CHATTING
      · refine change_iff_of_same_id ?_ (Or.inr ?_) <;>
          simp [dispense, h1, h2]
      · have he : (dispense sid s now).2.1 = expireIfNeeded s now := by
          simp [dispense, h1, h2]
        rw [he]; exact change_iff_refl _
    · have he : (dispense sid s now).2.1 = expireIfNeeded s now := by
        simp [dispense, h2]
      rw [he]; exact change_iff_refl _
  · by_cases h2 : sid = (expireIfNeeded s now).sessionId
    · by_cases h1 : (expireIfNeeded s now).state = .DISPENSING
      · refine change_iff_of_same_id ?_ (Or.inr ?_) <;>
          simp [markDone, h1, h2]
      · have he : (markDone sid s now).2 = expireIfNeeded s now := by
          simp [markDone, h1, h2]
        rw [he]; exact change_iff_refl _
    · have he : (markDone sid s now).2 = expireIfNeeded s now := by
        simp [markDone, h2]
      rw [he]; exact change_iff_refl _
  · have he : (canSendChat sid s now).2 = expireIfNeeded s now := by
      simp only [canSendChat]
      split_ifs <;> rfl
    rw [he]; exact change_iff_refl _
  · refine change_iff_same_fields ?_ ?_ <;>
      · simp only [pauseChatTimer]
        split_ifs <;>
          first
            | rfl
            | (rcases hc : s.chatExpiresAt with _ | d <;> simp [hc])
  · refine change_iff_same_fields ?_ ?_ <;>
      · simp only [resumeChatTimer]
        split_ifs <;>
          first
            | rfl
            | (rcases hc : s.pausedTimeRemaining with _ | r <;> simp [hc])
  · refine change_iff_same_fields ?_ ?_ <;>
      · simp only [setPaymentInfo]
        split_ifs <;> rfl
  · refine change_iff_same_fields ?_ ?_ <;>
      · simp only [clearPaymentInfo]
        split_ifs <;> rfl
  · refine change_iff_same_fields ?_ ?_ <;>
      · simp only [getPaymentInfo]
        split_ifs <;> rfl
  · intro hD
    refine change_iff_of_same_id rfl (Or.inr ?_)
    simp [dispenseDoneTimer]
  · intro hD
    refine change_iff_reset_like ?_ ?_ rfl
    · exact resetToIdle_sessionId_ne t hwf
    · simp [hD]

/-- Witness for the amended C7: the lazy-expiry reset of the expired
chatting store at time 70000 changes the session id and lands in IDLE. -/
theorem sessionId_change_iff_reset_witness :
    sessionIdChangeIffIdle chattingStore (expireIfNeeded chattingStore 70000) :=
  (sessionId_change_iff_reset chattingStore 70000 0 3 "Ana" infoX
    (by decide)).1

/-- C8: `setPaymentInfo` succeeds exactly when the id matches and the
state is CHATTING; on success it stores the caller's record with
`createdAt = now` and `paymentExpiresAt = now + PAYMENT_TTL_MS` stamped
server-side (whatever `createdAt`/`paymentExpiresAt` the caller supplied
are discarded, since `info` here is arbitrary), and a second call in
immediate succession independently restamps the full TTL from its own
call time. -/
theorem setPaymentInfo_contract (s : Store) (sid : Nat)
    (info info2 : PaymentInfo) (now now2 : Int) :
    ((setPaymentInfo sid info s now).1.ok = true ↔
      (sid = s.sessionId ∧ s.state = .CHATTING)) ∧
    (sid = s.sessionId → s.state = .CHATTING →
      (setPaymentInfo sid info s now).2 =
        { s with
          paymentInfo :=
            { info with
              createdAt := some now,
              paymentExpiresAt := some (now + PAYMENT_TTL_MS) },
          updatedAt := now } ∧
      (setPaymentInfo sid info2 (setPaymentInfo sid info s now).2 now2).2.paymentInfo =
        { info2 with
          createdAt := some now2,
          paymentExpiresAt := some (now2 + PAYMENT_TTL_MS) }) := by
  constructor
  · constructor
    · intro h
      by_cases h1 : sid = s.sessionId
      · by_cases h2 : s.state = .CHATTING
        · exact ⟨h1, h2⟩
        · simp [setPaymentInfo, h1, h2] at h
      · simp [setPaymentInfo, h1] at h
    · rintro ⟨h1, h2⟩
      simp [setPaymentInfo, h1, h2]
  · intro h1 h2
    constructor
    · simp [setPaymentInfo, h1, h2]
    · simp [setPaymentInfo, h1, h2]

/-- Witness for C8: on the chatting store, the first call at time 5
stamps expiry 60005 ignoring the caller-supplied 999, and a second call
at time 7 restamps expiry 60007. -/
theorem setPaymentInfo_contract_witness :
    (setPaymentInfo 0 infoX chattingStore 5).2.paymentInfo.paymentExpiresAt =
      some 60005 ∧
    (setPaymentInfo 0 infoX (setPaymentInfo 0 infoX chattingStore 5).2 7).2.paymentInfo.paymentExpiresAt =
      some 60007 := by
  have h := (setPaymentInfo_contract chattingStore 0 infoX infoX 5 7).2
    (by decide) (by decide)
  constructor
  · rw [h.1]; decide
  · rw [h.2]; decide

/-- C9: `dispense` fails with `WrongSession` on id mismatch and with the
invalid-state message from every (post expiry-check) state other than
CHATTING, mutating nothing further and emitting no effect; on success it
moves to DISPENSING, emits the physical-dispense effect exactly once
together with the auto-advance scheduling, leaves a store on which the
lazy chat-deadline expiry can never fire again (the timer is stopped),
and the scheduled chain then reaches DONE and finally IDLE with a fresh
session id. -/
theorem dispense_contract (s : Store) (sid : Nat) (now t2 t3 : Int)
    (hwf : WF s) :
    (sid ≠ (expireIfNeeded s now).sessionId →
      dispense sid s now =
        (⟨false, some "Wrong session"⟩, expireIfNeeded s now, [])) ∧
    (sid = (expireIfNeeded s now).sessionId →
      (expireIfNeeded s now).state ≠ .CHATTING →
      dispense sid s now =
        (⟨false, some ("Cannot dispense from " ++
          stateName (expireIfNeeded s now).state)⟩, expireIfNeeded s now, [])) ∧
    (sid = (expireIfNeeded s now).sessionId →
      (expireIfNeeded s now).state = .CHATTING →
      (dispense sid s now).1.ok = true ∧
      (dispense sid s now).2.1 =
        { expireIfNeeded s now with state := .DISPENSING, updatedAt := now } ∧
      (dispense sid s now).2.2 =
        [Effect.physicalDispense (expireIfNeeded s now).lockedByName,
         Effect.scheduleAutoAdvance] ∧
      (∀ u, expireIfNeeded (dispense sid s now).2.1 u = (dispense sid s now).2.1) ∧
      (dispenseDoneTimer (dispense sid s now).2.1 t2).state = .DONE ∧
      (doneIdleTimer (dispenseDoneTimer (dispense sid s now).2.1 t2) t3).state =
        .IDLE ∧
      (doneIdleTimer (dispenseDoneTimer (dispense sid s now).2.1 t2) t3).sessionId ≠
        (expireIfNeeded s now).sessionId) := by
  have hwfe : WF (expireIfNeeded s now) := WF_expire now hwf
  unfold WF at hwfe
  refine ⟨?_, ?_, ?_⟩
  · intro h; simp [dispense, h]
  · intro h1 h2; simp [dispense, h1, h2]
  · intro h1 h2
    have hs : (dispense sid s now).2.1 =
        { expireIfNeeded s now with state := .DISPENSING, updatedAt := now } := by
      simp [dispense, h1, h2]
    refine ⟨?_, hs, ?_, ?_, ?_, ?_, ?_⟩
    · simp [dispense, h1, h2]
    · simp [dispense, h1, h2]
    · intro u
      rw [hs]
      apply expire_of_not_stale
      simp [staleAt]
    · rfl
    · rfl
    · rw [hs]
      simp [doneIdleTimer, dispenseDoneTimer, resetToIdle]
      omega

/-- Witness for C9: dispensing the chatting store at time 10 with its id
succeeds and emits exactly the physical-dispense effect for Ana plus the
auto-advance scheduling. -/
theorem dispense_contract_witness :
    (dispense 0 chattingStore 10).1.ok = true ∧
    (dispense 0 chattingStore 10).2.2 =
      [Effect.physicalDispense (some "Ana"), Effect.scheduleAutoAdvance] :=
  ⟨((dispense_contract chattingStore 0 10 11 12 (by decide)).2.2
      (by decide) (by decide)).1,
   by
    have h := ((dispense_contract chattingStore 0 10 11 12 (by decide)).2.2
      (by decide) (by decide)).2.2.1
    simpa using h⟩

/-- C10: the module-level `pausedTimeRemaining` survives `cancel`,
`resetToIdle` and the lazy expiry; consequently, after a pause during one
occupancy, a cancel, and a fresh claim by a new occupant, the first
successful `resumeChatTimer` of the new occupancy overwrites the new
chat deadline with `now + (previous occupancy's captured remaining)`
instead of being a no-op. -/
theorem pausedTimeRemaining_leaks_across_sessions (s : Store)
    (d t1 t2 t3 t4 : Int) (u : String) (hwf : WF s)
    (hst : s.state = .CHATTING) (hd : s.chatExpiresAt = some d)
    (hpay : s.paymentInfo.paymentExpiresAt = none) :
    (∀ s' : Store, ∀ now : Int,
      (resetToIdle s' now).pausedTimeRemaining = s'.pausedTimeRemaining) ∧
    (∀ s' : Store, ∀ now : Int,
      (expireIfNeeded s' now).pausedTimeRemaining = s'.pausedTimeRemaining) ∧
    (∀ s' : Store, ∀ now : Int, ∀ sid : Nat,
      (cancel sid s' now).2.pausedTimeRemaining = s'.pausedTimeRemaining) ∧
    ((pauseChatTimer s.sessionId s t1).2.pausedTimeRemaining =
      some (max 0 (d - t1)) ∧
     (cancel s.sessionId (pauseChatTimer s.sessionId s t1).2 t2).2.state =
      .IDLE ∧
     (cancel s.sessionId (pauseChatTimer s.sessionId s t1).2 t2).2.sessionId ≠
      s.sessionId ∧
     (claim (cancel s.sessionId (pauseChatTimer s.sessionId s t1).2 t2).2.sessionId
        u (cancel s.sessionId (pauseChatTimer s.sessionId s t1).2 t2).2 t3).2.chatExpiresAt =
      some (t3 + CHAT_TTL_MS) ∧
     (resumeChatTimer
        (claim (cancel s.sessionId (pauseChatTimer s.sessionId s t1).2 t2).2.sessionId
          u (cancel s.sessionId (pauseChatTimer s.sessionId s t1).2 t2).2 t3).2.sessionId
        (claim (cancel s.sessionId (pauseChatTimer s.sessionId s t1).2 t2).2.sessionId
          u (cancel s.sessionId (pauseChatTimer s.sessionId s t1).2 t2).2 t3).2
        t4).2.chatExpiresAt = some (t4 + max 0 (d - t1))) := by
  refine ⟨?_, ?_, ?_, ?_⟩
  · intro s' now; rfl
  · intro s' now
    rcases hb : staleAt s' now with _ | _
    · rw [expire_of_not_stale hb]
    · rw [expire_of_stale hb]; rfl
  · intro s' now sid
    rcases hb : staleAt s' now with _ | _
    · simp only [cancel, expire_of_not_stale hb]
      split_ifs <;> rfl
    · simp only [cancel, expire_of_stale hb]
      split_ifs <;> rfl
  · have hp : (pauseChatTimer s.sessionId s t1).2 =
        { s with
          pausedTimeRemaining := some (max 0 (d - t1)),
          chatExpiresAt := none } := by
      simp [pauseChatTimer, hst, hd]
    have hAstale : staleAt
        ({ s with
          pausedTimeRemaining := some (max 0 (d - t1)),
          chatExpiresAt := none } : Store) t2 = false := by
      simp [staleAt, due, hst, hpay]
    have hc0 : cancel s.sessionId
        ({ s with
          pausedTimeRemaining := some (max 0 (d - t1)),
          chatExpiresAt := none } : Store) t2 =
        (⟨true, none⟩,
          { s with
            state := .IDLE, lockedByName := none, sessionId := s.gen,
            gen := s.gen + 1, chatExpiresAt := none, updatedAt := t2,
            pausedTimeRemaining := some (max 0 (d - t1)) }) := by
      simp only [cancel, expire_of_not_stale hAstale]
      split_ifs with hg1 hg2
      · simp at hg1
      · simp [hst] at hg2
      · rfl
    have hc : (cancel s.sessionId (pauseChatTimer s.sessionId s t1).2 t2).2 =
        { s with
          state := .IDLE, lockedByName := none, sessionId := s.gen,
          gen := s.gen + 1, chatExpiresAt := none, updatedAt := t2,
          pausedTimeRemaining := some (max 0 (d - t1)) } := by
      rw [hp, hc0]
    have hBstale : staleAt
        ({ s with
          state := .IDLE, lockedByName := none, sessionId := s.gen,
          gen := s.gen + 1, chatExpiresAt := none, updatedAt := t2,
          pausedTimeRemaining := some (max 0 (d - t1)) } : Store) t3 = false := by
      simp [staleAt, due]
    have hn : (claim (cancel s.sessionId (pauseChatTimer s.sessionId s t1).2 t2).2.sessionId
        u (cancel s.sessionId (pauseChatTimer s.sessionId s t1).2 t2).2 t3).2 =
        { s with
          state := .CHATTING, lockedByName := some u, sessionId := s.gen,
          gen := s.gen + 1, chatExpiresAt := some (t3 + CHAT_TTL_MS),
          updatedAt := t3,
          pausedTimeRemaining := some (max 0 (d - t1)) } := by
      rw [hc]
      simp [claim, expire_of_not_stale hBstale]
    unfold WF at hwf
    refine ⟨by rw [hp], by rw [hc], by rw [hc]; simp; omega, by rw [hn], ?_⟩
    rw [hn]
    simp [resumeChatTimer]

/-- Witness for C10: concrete leak — pause at 10000 (captures 50000),
cancel at 20000, Bob claims at 30000 (deadline 90000), and resume at
45000 overwrites the deadline to 95000. -/
theorem pausedTimeRemaining_leaks_across_sessions_witness :
    (resumeChatTimer
      (claim (cancel chattingStore.sessionId
          (pauseChatTimer chattingStore.sessionId chattingStore 10000).2 20000).2.sessionId
        "Bob" (cancel chattingStore.sessionId
          (pauseChatTimer chattingStore.sessionId chattingStore 10000).2 20000).2 30000).2.sessionId
      (claim (cancel chattingStore.sessionId
          (pauseChatTimer chattingStore.sessionId chattingStore 10000).2 20000).2.sessionId
        "Bob" (cancel chattingStore.sessionId
          (pauseChatTimer chattingStore.sessionId chattingStore 10000).2 20000).2 30000).2
      45000).2.chatExpiresAt = some 95000 := by
  have h := (pausedTimeRemaining_leaks_across_sessions chattingStore 60000
    10000 20000 30000 45000 "Bob" (by decide) (by decide) (by decide)
    (by decide)).2.2.2.2.2.2.2
  simpa using h

end Vending
